import Mathlib

/-!
Shallow embedding of `src/wagtailapi/views.py` (the read-only Wagtail JSON API
views module) together with the narrow collaborator interfaces it consumes
(content store lookups, the django-filters filterset, the search backend, the
serializers).  Collections are modelled as Lean lists, Django querysets as
list transformations, and Python exceptions as an `Except` error channel.
-/

namespace WagtailAPI

/-- A JSON value, the shape of response bodies produced by `json_response`. -/
inductive JValue where
  | null
  | str (s : String)
  | num (n : Int)
  | arr (xs : List JValue)
  | obj (members : List (String × JValue))

/-- The Python exceptions that can escape a view body.  `http404` and
`badAPIRequest` are the two caught by `format_api_exceptions`; the others
(`valueError` from `int()`, `nameError` from an unbound name,
`attributeError` from a missing attribute, `assertionError` from Django's
no-negative-slicing assertion) propagate unhandled. -/
inductive PyExc where
  | http404 (msg : String)
  | badAPIRequest (msg : String)
  | valueError (msg : String)
  | nameError (msg : String)
  | attributeError (msg : String)
  | assertionError (msg : String)
  deriving Repr, DecidableEq

/-- An HTTP response: a status code and a JSON body. -/
structure Response where
  status : Nat
  body : JValue

/-- A content item of the page tree.  `path` is the materialised tree path
(Wagtail-style): ancestry is path-prefixing.  `attrs` holds the Django model
field values consulted by the dynamic field filter, as an association list. -/
structure PageRec where
  id : Nat
  title : String
  typeName : String
  live : Bool
  isPublic : Bool
  path : List Nat
  attrs : List (String × String)
  deriving Repr, DecidableEq

/-- `root` is a prefix of `p`: the page with path `p` is a
descendant-of-or-equal-to the page with path `root`. -/
def underRoot : List Nat → List Nat → Bool
  | [], _ => true
  | _ :: _, [] => false
  | a :: as, b :: bs => a == b && underRoot as bs

/-- `p` is a direct child of `parent` in the page tree. -/
def isChildOf (parent p : PageRec) : Bool :=
  p.path.length == parent.path.length + 1 && underRoot parent.path p.path

/-- A content-model descriptor, as seen through `resolve_model_string` and the
attribute lookups `page_listing` performs on `queryset.model`:
`isInstance` says which pages belong to the model (`model.objects`),
`modelFields` are the Django model fields that `filterset_factory` builds
filters for, `api_fields` models the optional `api_fields` attribute, and
`has_api_filterset_class` / `filterset_pred` model the optional
`api_filterset_class` / `filterset_class` attributes (`filterset_pred = none`
means the model has no `filterset_class` attribute; `some pred` means it has
one whose filterset keeps the pages satisfying `pred params`). -/
structure ModelDesc where
  isInstance : String → Bool
  modelFields : List String
  api_fields : Option (List String)
  has_api_filterset_class : Bool
  filterset_pred : Option (List (String × String) → PageRec → Bool)

/-- The collaborating environment: the content store (`pages`), the model
registry behind `resolve_model_string` (`models`), the generic `Page` model,
the image and document collections (opaque items, kept as their serialized
JSON), the search backend's match predicate, the random-ordering key the
backend assigns to each row, and the field serializers from
`serialize.serialize_page`. -/
structure Env where
  pages : List PageRec
  models : List (String × ModelDesc)
  pageModel : ModelDesc
  images : List JValue
  documents : List JValue
  searchMatches : String → PageRec → Bool
  randKey : Nat → Nat
  project : PageRec → String → JValue
  allFields : PageRec → JValue

/-- An HTTP GET request: query parameters, the site root page attached by the
site middleware (`request.site.root_page`), and `request.path`. -/
structure Request where
  params : List (String × String)
  siteRoot : PageRec
  path : String

/-- An ASCII whitespace character (Python's `int()` strips surrounding
whitespace). -/
def isSpaceChar (c : Char) : Bool :=
  c == ' ' || c == '\t' || c == '\n' || c == '\r'

/-- Strip leading and trailing whitespace from a character list. -/
def stripChars (l : List Char) : List Char :=
  ((l.dropWhile isSpaceChar).reverse.dropWhile isSpaceChar).reverse

/-- A decimal digit. -/
def isPyDigit (c : Char) : Bool :=
  decide (48 ≤ c.toNat) && decide (c.toNat ≤ 57)

/-- A non-empty all-digit character list read as a decimal number;
`none` otherwise. -/
def digitsOf (cs : List Char) : Option Nat :=
  if cs.isEmpty then none
  else if cs.all isPyDigit then
    some (cs.foldl (fun acc c => acc * 10 + (c.toNat - 48)) 0)
  else none

/-- Python's `int()` on a string: surrounding whitespace stripped, an optional
sign, then decimal digits.  `none` models the `ValueError` raised otherwise. -/
def pyIntParse (s : String) : Option Int :=
  match stripChars s.toList with
  | '-' :: rest => (digitsOf rest).map (fun n => -(n : Int))
  | '+' :: rest => (digitsOf rest).map (fun n => (n : Int))
  | l => (digitsOf l).map (fun n => (n : Int))

/-- `int(s)`: the parsed integer, or a `ValueError`. -/
def pyInt (s : String) : Except PyExc Int :=
  match pyIntParse s with
  | some n => .ok n
  | none => .error (.valueError ("invalid literal for int() with base 10: " ++ s))

/-- `get_base_queryset`: `model.objects.public().live()` restricted to
descendants (inclusive) of the requesting site's root page. -/
def get_base_queryset (σ : Env) (req : Request) (model : ModelDesc) : List PageRec :=
  ((((σ.pages.filter (fun p => model.isInstance p.typeName)).filter
      (fun p => p.isPublic)).filter
      (fun p => p.live)).filter
      (fun p => underRoot req.siteRoot.path p.path))

/-- `format_api_exceptions`: catches `Http404` (to a 404 JSON response) and
`BadAPIRequestError` (to a 400 JSON response); every other exception
propagates out of the wrapper. -/
def format_api_exceptions (view : Except PyExc Response) : Except PyExc Response :=
  match view with
  | .ok r => .ok r
  | .error (.http404 m) => .ok ⟨404, .obj [("message", .str m)]⟩
  | .error (.badAPIRequest m) => .ok ⟨400, .obj [("message", .str m)]⟩
  | .error e => .error e

/-- Lines 62-70 of `page_listing`: resolve the `type` parameter through
`resolve_model_string` (a pure registry lookup), defaulting to the generic
`Page` model when absent and raising `Http404 "Type doesn't exist"` when the
lookup fails. -/
def resolveType (σ : Env) (req : Request) : Except PyExc ModelDesc :=
  match List.lookup "type" req.params with
  | some model_name =>
    match σ.models.lookup model_name with
    | some m => .ok m
    | none => .error (.http404 "Type doesn't exist")
  | none => .ok σ.pageModel

/-- The filterset produced by `filterset_factory(model)`: one filter per
Django model field; a parameter filters when its key names a model field and
its value is non-empty (django-filters skips empty values), requiring the
page's field value to equal it.  Parameters not naming a model field are
ignored.  Note the raw `request.GET` is passed through, so reserved control
keys are not excluded here. -/
def filterset_factory_pred (m : ModelDesc) (params : List (String × String))
    (p : PageRec) : Bool :=
  params.all (fun kv =>
    kv.2 == "" || !(m.modelFields.contains kv.1) || p.attrs.lookup kv.1 == some kv.2)

/-- Lines 75-82 of `page_listing`: if the model `hasattr 'api_filterset_class'`
the code reads the attribute `filterset_class` (an `AttributeError` when the
model lacks it), otherwise it uses `filterset_factory(queryset.model)`; then
runs the filterset over `request.GET`. -/
def fieldFilterStage (m : ModelDesc) (params : List (String × String))
    (qs : List PageRec) : Except PyExc (List PageRec) :=
  if m.has_api_filterset_class then
    match m.filterset_pred with
    | some pred => .ok (qs.filter (pred params))
    | none => .error (.attributeError "type object has no attribute filterset_class")
  else
    .ok (qs.filter (filterset_factory_pred m params))

/-- Lines 84-92 of `page_listing`: the `child_of` filter.  The parent lookup
is `Page.objects.get(id=...)` against the whole page store (the collaborator's
`get_by_id`, matching the parameter against an item id); `DoesNotExist` maps
to `Http404 "Parent page doesn't exist"`, otherwise the collection is
restricted to direct children of the parent. -/
def childOfStage (σ : Env) (params : List (String × String))
    (qs : List PageRec) : Except PyExc (List PageRec) :=
  match List.lookup "child_of" params with
  | none => .ok qs
  | some idStr =>
    match σ.pages.find? (fun p => toString p.id == idStr) with
    | some parent => .ok (qs.filter (fun p => isChildOf parent p))
    | none => .error (.http404 "Parent page doesn't exist")

/-- Stable insertion into a list sorted by `le`. -/
def insertLe (le : α → α → Bool) (a : α) : List α → List α
  | [] => [a]
  | b :: bs => if le a b then a :: b :: bs else b :: insertLe le a bs

/-- Insertion sort by `le`, the model of `queryset.order_by`. -/
def sortLe (le : α → α → Bool) : List α → List α
  | [] => []
  | a :: as => insertLe le a (sortLe le as)

/-- Lines 94-109 of `page_listing`: the ordering stage.  `order=random` is
`order_by('?')`, modelled as sorting by the backend-assigned random key;
`id` and `title` sort ascending by those fields.  For any other value listed
in the model's `api_fields` the source enters a `try` block whose first line
reads the unbound names `obj` and `field_name`; the resulting `NameError` is
swallowed by the bare `except: pass`, so the queryset is left unchanged.
Every value outside those cases is silently ignored. -/
def orderStage (σ : Env) (m : ModelDesc) (params : List (String × String))
    (qs : List PageRec) : List PageRec :=
  match List.lookup "order" params with
  | none => qs
  | some order_by =>
    if order_by == "random" then
      sortLe (fun p q => decide (σ.randKey p.id ≤ σ.randKey q.id)) qs
    else if order_by == "id" then
      sortLe (fun p q => decide (p.id ≤ q.id)) qs
    else if order_by == "title" then
      sortLe (fun p q => decide (p.title ≤ q.title)) qs
    else
      match m.api_fields with
      | some fs =>
        if fs.contains order_by then
          qs
        else qs
      | none => qs

/-- Lines 112-114 of `page_listing`: the search stage delegates to the
backend, which returns the matching subset of the already-filtered
collection. -/
def searchStage (σ : Env) (params : List (String × String))
    (qs : List PageRec) : List PageRec :=
  match List.lookup "search" params with
  | none => qs
  | some q => qs.filter (σ.searchMatches q)

/-- Line 117: `int(request.GET.get('offset', 0))` — the absent default is the
integer `0`; a present value goes through bare `int()`, whose `ValueError` is
not caught anywhere. -/
def offsetVal (params : List (String × String)) : Except PyExc Int :=
  match List.lookup "offset" params with
  | none => .ok 0
  | some s => pyInt s

/-- Line 118: `int(request.GET.get('limit', 20))`, same shape as `offsetVal`
with default `20`. -/
def limitVal (params : List (String × String)) : Except PyExc Int :=
  match List.lookup "limit" params with
  | none => .ok 20
  | some s => pyInt s

/-- Lines 117-122 of `page_listing`: parse `offset` and `limit`, then take the
slice `queryset[offset : offset + limit]`.  Django querysets assert that both
slice bounds are non-negative. -/
def sliceStage (params : List (String × String)) (qs : List PageRec) :
    Except PyExc (List PageRec) :=
  match offsetVal params with
  | .error e => .error e
  | .ok offset =>
    match limitVal params with
    | .error e => .error e
    | .ok limit =>
      let start := offset
      let stop := offset + limit
      if start < 0 ∨ stop < 0 then
        .error (.assertionError "Negative indexing is not supported.")
      else
        .ok ((qs.drop start.toNat).take (stop.toNat - start.toNat))

/-- The fully filtered and ordered collection of `page_listing`: everything
from type resolution up to (and including) the search stage, before slicing. -/
def page_listing_collection (σ : Env) (req : Request) :
    Except PyExc (List PageRec) :=
  match resolveType σ req with
  | .error e => .error e
  | .ok model =>
    match fieldFilterStage model req.params (get_base_queryset σ req model) with
    | .error e => .error e
    | .ok queryset =>
      match childOfStage σ req.params queryset with
      | .error e => .error e
      | .ok queryset =>
        .ok (searchStage σ req.params (orderStage σ model req.params queryset))

/-- The result items of `page_listing`: the collection sliced by
`offset`/`limit`. -/
def page_listing_results (σ : Env) (req : Request) :
    Except PyExc (List PageRec) :=
  match page_listing_collection σ req with
  | .error e => .error e
  | .ok queryset => sliceStage req.params queryset

/-- Python's `str.split(sep)` with a one-character separator, over the
character list: splitting the empty list yields one empty group. -/
def splitOnChar (c : Char) : List Char → List (List Char)
  | [] => [[]]
  | a :: as =>
    if a = c then [] :: splitOnChar c as
    else
      match splitOnChar c as with
      | [] => [[a]]
      | g :: gs => (a :: g) :: gs

/-- Python's `s.split(',')`: in particular `''.split(',') == ['']`. -/
def pySplit (s : String) (c : Char) : List String :=
  (splitOnChar c s.toList).map (fun cs => String.mk cs)

/-- Lines 124-128 of `page_listing`: the requested field names —
`request.GET['fields'].split(',')` when present, else `('title',)`. -/
def requested_fields (params : List (String × String)) : List String :=
  match List.lookup "fields" params with
  | some fs => pySplit fs ','
  | none => ["title"]

/-- Modelled from the spec: `serialize.serialize_page` in listing mode is not
under `src/`; per the spec (§4.8) the listing view emits a JSON object
containing exactly the requested field names, each value being that field's
projected representation (the field serializer is a collaborator). -/
def serialize_page (σ : Env) (p : PageRec) (fields : List String) : JValue :=
  .obj (fields.map (fun f => (f, σ.project p f)))

/-- Modelled from the spec: `serialize.serialize_page` with `all_fields=True`
is not under `src/`; per the spec (§4.8) the detail view emits a JSON object
containing all declared fields of the item's most specific type (delegated to
the collaborator serializer `allFields`). -/
def serialize_page_all (σ : Env) (p : PageRec) : JValue :=
  σ.allFields p

/-- The `page_listing` view body (before `format_api_exceptions`). -/
def page_listing (σ : Env) (req : Request) : Except PyExc Response :=
  match page_listing_results σ req with
  | .error e => .error e
  | .ok results =>
    .ok ⟨200, .arr (results.map (fun p => serialize_page σ p (requested_fields req.params)))⟩

/-- `page_listing` as routed: wrapped in `format_api_exceptions`. -/
def page_listing_view (σ : Env) (req : Request) : Except PyExc Response :=
  format_api_exceptions (page_listing σ req)

/-- `page_detail` lines 136-138: `get_object_or_404(get_base_queryset(request), pk=pk)`
(Django raises `Http404` when no object matches) followed by `.specific`,
which yields the same item at its most specific type. -/
def page_detail_lookup (σ : Env) (req : Request) (pk : Nat) :
    Except PyExc PageRec :=
  match (get_base_queryset σ req σ.pageModel).find? (fun p => p.id == pk) with
  | some page => .ok page
  | none => .error (.http404 "No Page matches the given query.")

/-- The `page_detail` view body. -/
def page_detail (σ : Env) (req : Request) (pk : Nat) : Except PyExc Response :=
  match page_detail_lookup σ req pk with
  | .error e => .error e
  | .ok page => .ok ⟨200, serialize_page_all σ page⟩

/-- `page_detail` as routed: wrapped in `format_api_exceptions`. -/
def page_detail_view (σ : Env) (req : Request) (pk : Nat) : Except PyExc Response :=
  format_api_exceptions (page_detail σ req pk)

/-- Modelled from the spec: `parse_int` is called by `image_listing` and
`document_listing` but is not defined under `src/`; per the spec (§4.7) it
parses the value as an integer and fails with `BadRequest` when the value is
not parseable as an integer. -/
def parse_int (s : String) (fieldName : String) : Except PyExc Int :=
  match pyIntParse s with
  | some n => .ok n
  | none => .error (.badAPIRequest (fieldName ++ " must be an integer"))

/-- `parse_int(request.GET.get('page', 1), 'page')`: the absent default is the
integer `1`; a present string value goes through `parse_int`. -/
def pageParam (params : List (String × String)) : Except PyExc Int :=
  match List.lookup "page" params with
  | none => .ok 1
  | some s => parse_int s "page"

/-- Django `Paginator.num_pages` with `orphans=0` and
`allow_empty_first_page=True`: `ceil(max(1, count) / per_page)`. -/
def paginator_num_pages (count per_page : Nat) : Nat :=
  if count = 0 then 1 else (count + per_page - 1) / per_page

/-- The `image_listing` view body (lines 144-175): page-number pagination of
the whole image collection with page size 10.  `Paginator.page` raises
`EmptyPage` when the number is below 1 or beyond the last page, which the view
maps to `Http404 "This page has no results"`; otherwise the response carries
the count, the page's items, and `previous`/`next` URLs
(`request.path + '?' + urlencode({'page': n})`) when adjacent pages exist,
else JSON `null`. -/
def image_listing (σ : Env) (req : Request) : Except PyExc Response :=
  let qs := σ.images
  match pageParam req.params with
  | .error e => .error e
  | .ok page_number =>
    let num_pages := paginator_num_pages qs.length 10
    if page_number < 1 ∨ (num_pages : Int) < page_number then
      .error (.http404 "This page has no results")
    else
      let n := page_number.toNat
      let object_list := (qs.drop ((n - 1) * 10)).take 10
      let nextVal := if n < num_pages then
          JValue.str (req.path ++ "?page=" ++ toString (n + 1))
        else JValue.null
      let prevVal := if 1 < n then
          JValue.str (req.path ++ "?page=" ++ toString (n - 1))
        else JValue.null
      .ok ⟨200, .obj [("count", .num (Int.ofNat qs.length)),
                      ("results", .arr object_list),
                      ("previous", prevVal),
                      ("next", nextVal)]⟩

/-- `image_listing` as routed: wrapped in `format_api_exceptions`. -/
def image_listing_view (σ : Env) (req : Request) : Except PyExc Response :=
  format_api_exceptions (image_listing σ req)

/-- The `document_listing` view body (lines 186-217): identical to
`image_listing` but over the document collection. -/
def document_listing (σ : Env) (req : Request) : Except PyExc Response :=
  let qs := σ.documents
  match pageParam req.params with
  | .error e => .error e
  | .ok page_number =>
    let num_pages := paginator_num_pages qs.length 10
    if page_number < 1 ∨ (num_pages : Int) < page_number then
      .error (.http404 "This page has no results")
    else
      let n := page_number.toNat
      let object_list := (qs.drop ((n - 1) * 10)).take 10
      let nextVal := if n < num_pages then
          JValue.str (req.path ++ "?page=" ++ toString (n + 1))
        else JValue.null
      let prevVal := if 1 < n then
          JValue.str (req.path ++ "?page=" ++ toString (n - 1))
        else JValue.null
      .ok ⟨200, .obj [("count", .num (Int.ofNat qs.length)),
                      ("results", .arr object_list),
                      ("previous", prevVal),
                      ("next", nextVal)]⟩

/-- `document_listing` as routed: wrapped in `format_api_exceptions`. -/
def document_listing_view (σ : Env) (req : Request) : Except PyExc Response :=
  format_api_exceptions (document_listing σ req)

/-! Concrete fixtures: a small content store used to evaluate the pipeline on
closed inputs. -/

/-- The site root page. -/
def rootPage : PageRec :=
  { id := 1, title := "Home", typeName := "wagtailcore.Page", live := true,
    isPublic := true, path := [1], attrs := [] }

/-- An article whose slug sorts late. -/
def articleZebra : PageRec :=
  { id := 2, title := "Zebra", typeName := "demo.Article", live := true,
    isPublic := true, path := [1, 2], attrs := [("slug", "zebra")] }

/-- An article whose slug sorts early. -/
def articleApple : PageRec :=
  { id := 3, title := "Apple", typeName := "demo.Article", live := true,
    isPublic := true, path := [1, 3], attrs := [("slug", "apple")] }

/-- A page of a model that declares a Django field named `order`. -/
def thingX : PageRec :=
  { id := 4, title := "Thing X", typeName := "demo.Thing", live := true,
    isPublic := true, path := [1, 4], attrs := [("order", "x")] }

/-- A second `demo.Thing` page, with a different `order` field value. -/
def thingY : PageRec :=
  { id := 5, title := "Thing Y", typeName := "demo.Thing", live := true,
    isPublic := true, path := [1, 5], attrs := [("order", "y")] }

/-- The generic `Page` model. -/
def pageModel0 : ModelDesc :=
  { isInstance := fun _ => true, modelFields := ["title", "slug"],
    api_fields := none, has_api_filterset_class := false, filterset_pred := none }

/-- A page model declaring `api_fields = ['slug']`. -/
def articleModel : ModelDesc :=
  { isInstance := fun t => t == "demo.Article", modelFields := ["title", "slug"],
    api_fields := some ["slug"], has_api_filterset_class := false,
    filterset_pred := none }

/-- A page model with a Django field literally named `order`, so the factory
filterset builds a filter for the `order` query key. -/
def thingModel : ModelDesc :=
  { isInstance := fun t => t == "demo.Thing", modelFields := ["order"],
    api_fields := none, has_api_filterset_class := false, filterset_pred := none }

/-- A page model that has an `api_filterset_class` attribute but no
`filterset_class` attribute. -/
def brokenFiltersetModel : ModelDesc :=
  { isInstance := fun t => t == "demo.Broken", modelFields := [],
    api_fields := none, has_api_filterset_class := true, filterset_pred := none }

/-- The concrete environment for the closed evaluations. -/
def env0 : Env :=
  { pages := [rootPage, articleZebra, articleApple, thingX, thingY],
    models := [("demo.Article", articleModel), ("demo.Thing", thingModel),
               ("demo.Broken", brokenFiltersetModel)],
    pageModel := pageModel0,
    images := [.str "image-1", .str "image-2"],
    documents := [.str "doc-1"],
    searchMatches := fun _ _ => true,
    randKey := fun n => n,
    project := fun p f => if f == "title" then .str p.title else .null,
    allFields := fun p => .obj [("id", .num (Int.ofNat p.id)), ("title", .str p.title)] }

/-- A request against `env0` with the given query parameters. -/
def mkReq (ps : List (String × String)) : Request :=
  { params := ps, siteRoot := rootPage, path := "/api/v1/pages/" }

/-! Helper lemmas: every pipeline stage only narrows (or permutes) the
collection it is given. -/

theorem mem_insertLe {le : α → α → Bool} {a x : α} {l : List α} :
    x ∈ insertLe le a l ↔ x = a ∨ x ∈ l := by
  induction l with
  | nil => simp [insertLe]
  | cons b bs ih =>
    simp only [insertLe]
    split
    · simp [List.mem_cons]
    · simp only [List.mem_cons, ih]
      tauto

theorem mem_sortLe {le : α → α → Bool} {x : α} {l : List α} :
    x ∈ sortLe le l ↔ x ∈ l := by
  induction l with
  | nil => simp [sortLe]
  | cons a as ih => simp [sortLe, mem_insertLe, ih]

theorem orderStage_mem {σ : Env} {m : ModelDesc} {ps : List (String × String)}
    {qs : List PageRec} {p : PageRec} (h : p ∈ orderStage σ m ps qs) : p ∈ qs := by
  unfold orderStage at h
  split at h
  · exact h
  · split at h
    · exact mem_sortLe.mp h
    · split at h
      · exact mem_sortLe.mp h
      · split at h
        · exact mem_sortLe.mp h
        · split at h
          · split at h <;> exact h
          · exact h

theorem searchStage_mem {σ : Env} {ps : List (String × String)}
    {qs : List PageRec} {p : PageRec} (h : p ∈ searchStage σ ps qs) : p ∈ qs := by
  unfold searchStage at h
  split at h
  · exact h
  · exact List.mem_of_mem_filter h

theorem fieldFilterStage_subset {m : ModelDesc} {ps : List (String × String)}
    {qs qs' : List PageRec} (h : fieldFilterStage m ps qs = .ok qs') : qs' ⊆ qs := by
  unfold fieldFilterStage at h
  split at h
  · split at h
    · cases h; exact fun x hx => List.mem_of_mem_filter hx
    · simp at h
  · cases h; exact fun x hx => List.mem_of_mem_filter hx

theorem childOfStage_subset {σ : Env} {ps : List (String × String)}
    {qs qs' : List PageRec} (h : childOfStage σ ps qs = .ok qs') : qs' ⊆ qs := by
  unfold childOfStage at h
  split at h
  · cases h; exact fun x hx => hx
  · split at h
    · cases h; exact fun x hx => List.mem_of_mem_filter hx
    · simp at h

theorem sliceStage_subset {ps : List (String × String)}
    {qs qs' : List PageRec} (h : sliceStage ps qs = .ok qs') : qs' ⊆ qs := by
  unfold sliceStage at h
  split at h
  · simp at h
  · split at h
    · simp at h
    · dsimp only at h
      split at h
      · simp at h
      · cases h
        exact fun x hx =>
          List.drop_subset _ _ (List.take_subset _ _ hx)

theorem get_base_queryset_scope {σ : Env} {req : Request} {m : ModelDesc}
    {p : PageRec} (h : p ∈ get_base_queryset σ req m) :
    p.live = true ∧ p.isPublic = true ∧ underRoot req.siteRoot.path p.path = true := by
  simp only [get_base_queryset, List.mem_filter] at h
  exact ⟨h.1.2, h.1.1.2, h.2⟩

theorem page_listing_results_scope {σ : Env} {req : Request} {ps : List PageRec}
    (h : page_listing_results σ req = .ok ps) :
    ∀ p ∈ ps, p.live = true ∧ p.isPublic = true ∧
      underRoot req.siteRoot.path p.path = true := by
  intro p hp
  unfold page_listing_results at h
  split at h
  · simp at h
  · rename_i queryset hcoll
    unfold page_listing_collection at hcoll
    split at hcoll
    · simp at hcoll
    · rename_i model hmodel
      split at hcoll
      · simp at hcoll
      · rename_i qs1 hff
        split at hcoll
        · simp at hcoll
        · rename_i qs2 hchild
          cases hcoll
          have h1 : p ∈ searchStage σ req.params (orderStage σ model req.params qs2) :=
            sliceStage_subset h hp
          have h2 := searchStage_mem h1
          have h3 := orderStage_mem h2
          have h4 := childOfStage_subset hchild h3
          have h5 := fieldFilterStage_subset hff h4
          exact get_base_queryset_scope h5

/-- Claim C1: every content item returned by a page listing or page detail
request is live, public, and a descendant-of-or-equal-to of the requesting
site's root page.  The scope restriction of `get_base_queryset` is applied
before any other filter and every later stage only narrows or permutes the
collection, so no request can return an item outside the site root's
subtree. -/
theorem pages_scope_invariant (σ : Env) (req : Request) (pk : Nat) :
    (∀ ps, page_listing_results σ req = .ok ps → ∀ p ∈ ps,
        p.live = true ∧ p.isPublic = true ∧
          underRoot req.siteRoot.path p.path = true) ∧
    (∀ p, page_detail_lookup σ req pk = .ok p →
        p.live = true ∧ p.isPublic = true ∧
          underRoot req.siteRoot.path p.path = true) := by
  constructor
  · intro ps h p hp
    exact page_listing_results_scope h p hp
  · intro p h
    unfold page_detail_lookup at h
    split at h
    · rename_i page hfind
      cases h
      exact get_base_queryset_scope (List.mem_of_find?_eq_some hfind)
    · simp at h

/-- Concrete check of C1: on the fixture store, the default page listing
returns `articleZebra`, which is live, public, and under the site root. -/
theorem pages_scope_invariant_witness :
    articleZebra.live = true ∧ articleZebra.isPublic = true ∧
      underRoot (mkReq []).siteRoot.path articleZebra.path = true :=
  (pages_scope_invariant env0 (mkReq []) 1).1
    [rootPage, articleZebra, articleApple, thingX, thingY] rfl
    articleZebra (by decide)

/-- Claim C2 (code bug): the spec requires non-integer `offset`/`limit`/`page`
values to yield HTTP 400, and the views module defines `BadAPIRequestError`
with a 400 handler for exactly that purpose, but `page_listing` parses
`offset` and `limit` with bare `int()`: the `ValueError` on a non-integer
value is caught by neither branch of `format_api_exceptions` and escapes as
an unhandled exception instead of a 400 response.  The `page` parameter of
`image_listing` does go through `parse_int` and produces the 400. -/
theorem nonint_offset_uncaught_valueerror :
    page_listing_view env0 (mkReq [("offset", "abc")]) =
      .error (.valueError "invalid literal for int() with base 10: abc") ∧
    page_listing_view env0 (mkReq [("limit", "ten")]) =
      .error (.valueError "invalid literal for int() with base 10: ten") ∧
    image_listing_view env0 (mkReq [("page", "abc")]) =
      .ok ⟨400, .obj [("message", .str "page must be an integer")]⟩ :=
  ⟨rfl, rfl, rfl⟩

/-- Claim C3: for integer `offset ≥ 0` and `limit ≥ 0`, the page listing
returns exactly the slice `[offset, offset+limit)` of the fully filtered and
ordered collection, hence at most `limit` items; an absent `offset` defaults
to 0 and an absent `limit` defaults to 20. -/
theorem listing_slice_spec (σ : Env) (req : Request) (c : List PageRec) (o l : Int)
    (hc : page_listing_collection σ req = .ok c)
    (ho : offsetVal req.params = .ok o) (hl : limitVal req.params = .ok l)
    (ho0 : 0 ≤ o) (hl0 : 0 ≤ l) :
    page_listing_results σ req = .ok ((c.drop o.toNat).take l.toNat) ∧
    ((c.drop o.toNat).take l.toNat).length ≤ l.toNat ∧
    (List.lookup "offset" req.params = none → offsetVal req.params = .ok 0) ∧
    (List.lookup "limit" req.params = none → limitVal req.params = .ok 20) := by
  refine ⟨?_, ?_, ?_, ?_⟩
  · unfold page_listing_results
    rw [hc]
    unfold sliceStage
    rw [ho, hl]
    dsimp only
    rw [if_neg (by omega)]
    have harith : (o + l).toNat - o.toNat = l.toNat := by omega
    rw [harith]
  · exact List.length_take_le _ _
  · intro h; unfold offsetVal; rw [h]
  · intro h; unfold limitVal; rw [h]

/-- Concrete check of C3: with `offset=1&limit=2` the fixture listing returns
items 2 and 3 of the five-item collection. -/
theorem listing_slice_spec_witness :
    page_listing_results env0 (mkReq [("offset", "1"), ("limit", "2")]) =
      .ok [articleZebra, articleApple] :=
  ((listing_slice_spec env0 (mkReq [("offset", "1"), ("limit", "2")])
      [rootPage, articleZebra, articleApple, thingX, thingY] 1 2
      rfl rfl rfl (by decide) (by decide)).1).trans (by rfl)

/-- Claim C4 (code bug): for an `order` value drawn from the model's declared
`api_fields`, the spec and the code's own (unreachable) `order_by` call intend
ascending ordering by that field, but the `try` block first evaluates the
unbound names `obj` and `field_name`; the resulting `NameError` is swallowed
by the bare `except: pass`, so the collection keeps its original order.  On
the fixture store, ordering `demo.Article` pages by their declared `slug`
field returns the slug-"zebra" page before the slug-"apple" page, identical
to the request without `order`. -/
theorem order_by_api_field_has_no_effect :
    page_listing_results env0 (mkReq [("type", "demo.Article"), ("order", "slug")]) =
      .ok [articleZebra, articleApple] ∧
    page_listing_results env0 (mkReq [("type", "demo.Article")]) =
      .ok [articleZebra, articleApple] ∧
    articleZebra.attrs.lookup "slug" = some "zebra" ∧
    articleApple.attrs.lookup "slug" = some "apple" :=
  ⟨rfl, rfl, rfl, rfl⟩

/-- Claim C6: with no `type` parameter the generic `Page` model is used; a
`type` value that does not resolve in the model registry makes the page
listing return HTTP 404 with message "Type doesn't exist".  Type resolution
is a pure registry lookup (`resolveType` is a function of the request and the
registry alone), so it performs no side effects. -/
theorem type_resolution_spec (σ : Env) (req : Request) :
    (List.lookup "type" req.params = none → resolveType σ req = .ok σ.pageModel) ∧
    (∀ n, List.lookup "type" req.params = some n → σ.models.lookup n = none →
      page_listing_view σ req =
        .ok ⟨404, .obj [("message", .str "Type doesn't exist")]⟩) := by
  constructor
  · intro h
    unfold resolveType
    rw [h]
  · intro n hn hm
    unfold page_listing_view page_listing page_listing_results
      page_listing_collection resolveType
    simp only [hn, hm]
    rfl

/-- Concrete check of C6: the fixture request with no `type` resolves to the
generic model, and `type=demo.Missing` yields the 404 body. -/
theorem type_resolution_spec_witness :
    resolveType env0 (mkReq []) = .ok env0.pageModel ∧
    page_listing_view env0 (mkReq [("type", "demo.Missing")]) =
      .ok ⟨404, .obj [("message", .str "Type doesn't exist")]⟩ :=
  ⟨(type_resolution_spec env0 (mkReq [])).1 rfl,
   (type_resolution_spec env0 (mkReq [("type", "demo.Missing")])).2
     "demo.Missing" rfl rfl⟩

/-- Claim C7: with `child_of` present, a parent id matching no page makes the
endpoint return HTTP 404 with message "Parent page doesn't exist"; a matching
parent restricts the collection produced by the preceding stages to that
page's direct children. -/
theorem child_of_spec (σ : Env) (req : Request) (s : String) (m : ModelDesc)
    (qs1 : List PageRec)
    (hc : List.lookup "child_of" req.params = some s)
    (hm : resolveType σ req = .ok m)
    (hf : fieldFilterStage m req.params (get_base_queryset σ req m) = .ok qs1) :
    (σ.pages.find? (fun p => toString p.id == s) = none →
      page_listing_view σ req =
        .ok ⟨404, .obj [("message", .str "Parent page doesn't exist")]⟩) ∧
    (∀ parent, σ.pages.find? (fun p => toString p.id == s) = some parent →
      childOfStage σ req.params qs1 =
        .ok (qs1.filter (fun p => isChildOf parent p))) := by
  constructor
  · intro hfind
    unfold page_listing_view page_listing page_listing_results page_listing_collection
      childOfStage
    simp only [hm, hf, hc, hfind]
    rfl
  · intro parent hfind
    unfold childOfStage
    simp only [hc, hfind]

/-- Concrete check of C7: `child_of=99` matches no fixture page and yields the
404 body. -/
theorem child_of_spec_witness :
    page_listing_view env0 (mkReq [("child_of", "99")]) =
      .ok ⟨404, .obj [("message", .str "Parent page doesn't exist")]⟩ :=
  (child_of_spec env0 (mkReq [("child_of", "99")]) "99" pageModel0
      [rootPage, articleZebra, articleApple, thingX, thingY] rfl rfl rfl).1 rfl

/-- Claim C9: when the resolved model has an `api_filterset_class` attribute,
the field-filter stage reads the differently named attribute
`filterset_class` from it; if the model lacks `filterset_class` the attribute
lookup error escapes unhandled (no HTTP response), so the request completes
only when the model also defines `filterset_class`, in which case that
filterset is the one applied. -/
theorem filterset_class_attr_spec (σ : Env) (req : Request) (m : ModelDesc)
    (hm : resolveType σ req = .ok m)
    (h : m.has_api_filterset_class = true) :
    (m.filterset_pred = none →
      page_listing_view σ req =
        .error (.attributeError "type object has no attribute filterset_class")) ∧
    (∀ pred, m.filterset_pred = some pred →
      fieldFilterStage m req.params (get_base_queryset σ req m) =
        .ok ((get_base_queryset σ req m).filter (pred req.params))) := by
  constructor
  · intro hp
    unfold page_listing_view page_listing page_listing_results page_listing_collection
    rw [hm]
    dsimp only
    unfold fieldFilterStage
    rw [h, hp]
    rfl
  · intro pred hp
    unfold fieldFilterStage
    rw [h, hp]
    rfl

/-- Concrete check of C9: requesting the fixture model that declares
`api_filterset_class` but no `filterset_class` makes the view die with the
attribute lookup error. -/
theorem filterset_class_attr_spec_witness :
    page_listing_view env0 (mkReq [("type", "demo.Broken")]) =
      .error (.attributeError "type object has no attribute filterset_class") :=
  (filterset_class_attr_spec env0 (mkReq [("type", "demo.Broken")])
      brokenFiltersetModel rfl rfl).1 rfl

/-- Claim C10: the default `{title}` projection applies only when the `fields`
query parameter is absent; a present-but-empty `fields` value requests the
single empty-string field name (the comma-split of the empty string), not the
default. -/
theorem fields_param_default_spec (params : List (String × String)) :
    (List.lookup "fields" params = none → requested_fields params = ["title"]) ∧
    (List.lookup "fields" params = some "" →
      requested_fields params = [""] ∧ requested_fields params ≠ ["title"]) := by
  constructor
  · intro h
    unfold requested_fields
    rw [h]
  · intro h
    have he : requested_fields params = [""] := by
      unfold requested_fields
      rw [h]
      rfl
    exact ⟨he, by rw [he]; decide⟩

/-- Concrete check of C10 at the empty parameter list and at `fields=`. -/
theorem fields_param_default_spec_witness :
    requested_fields [] = ["title"] ∧ requested_fields [("fields", "")] = [""] :=
  ⟨(fields_param_default_spec []).1 rfl,
   ((fields_param_default_spec [("fields", "")]).2 rfl).1⟩

/-- Claim C8: image and document listings paginate the whole collection with
fixed page size 10 and integer `page` parameter defaulting to 1.  A page
number beyond the last valid page yields HTTP 404 with message "This page has
no results"; page 1 of a collection with fewer than 10 items returns all the
items with both `next` and `previous` null. -/
theorem page_number_pagination_spec (σ : Env) (req : Request) (n : Int)
    (hp : pageParam req.params = .ok n) :
    ((paginator_num_pages σ.images.length 10 : Int) < n →
      image_listing_view σ req =
        .ok ⟨404, .obj [("message", .str "This page has no results")]⟩) ∧
    (n = 1 → σ.images.length < 10 →
      image_listing_view σ req =
        .ok ⟨200, .obj [("count", .num (Int.ofNat σ.images.length)),
                        ("results", .arr σ.images),
                        ("previous", .null), ("next", .null)]⟩) ∧
    ((paginator_num_pages σ.documents.length 10 : Int) < n →
      document_listing_view σ req =
        .ok ⟨404, .obj [("message", .str "This page has no results")]⟩) ∧
    (n = 1 → σ.documents.length < 10 →
      document_listing_view σ req =
        .ok ⟨200, .obj [("count", .num (Int.ofNat σ.documents.length)),
                        ("results", .arr σ.documents),
                        ("previous", .null), ("next", .null)]⟩) ∧
    (List.lookup "page" req.params = none → pageParam req.params = .ok 1) := by
  refine ⟨?_, ?_, ?_, ?_, ?_⟩
  · intro h
    unfold image_listing_view image_listing
    rw [hp]
    dsimp only
    rw [if_pos (Or.inr h)]
    rfl
  · intro hn hlen
    subst hn
    unfold image_listing_view image_listing
    rw [hp]
    dsimp only
    have hnp : paginator_num_pages σ.images.length 10 = 1 := by
      unfold paginator_num_pages
      split <;> omega
    rw [hnp]
    rw [if_neg (by omega)]
    rw [show ((1 : Int)).toNat = 1 from rfl]
    have hdrop : σ.images.drop ((1 - 1) * 10) = σ.images := rfl
    rw [hdrop, List.take_of_length_le (by omega)]
    rw [if_neg (by omega), if_neg (by omega)]
    rfl
  · intro h
    unfold document_listing_view document_listing
    rw [hp]
    dsimp only
    rw [if_pos (Or.inr h)]
    rfl
  · intro hn hlen
    subst hn
    unfold document_listing_view document_listing
    rw [hp]
    dsimp only
    have hnp : paginator_num_pages σ.documents.length 10 = 1 := by
      unfold paginator_num_pages
      split <;> omega
    rw [hnp]
    rw [if_neg (by omega)]
    rw [show ((1 : Int)).toNat = 1 from rfl]
    have hdrop : σ.documents.drop ((1 - 1) * 10) = σ.documents := rfl
    rw [hdrop, List.take_of_length_le (by omega)]
    rw [if_neg (by omega), if_neg (by omega)]
    rfl
  · intro h
    unfold pageParam
    rw [h]

/-- Claim C5 counterexample: `page_listing` hands the raw `request.GET` to the
filterset, so an `order` value that is not `random`, `id`, `title`, or a
declared `api_fields` name is not always ignored: for a model with a Django
field named `order` (here `demo.Thing`, whose `api_fields` is absent) the
value is consumed by the dynamic field filter and changes the result set
relative to the same request without `order`. -/
theorem order_param_leaks_into_field_filter :
    page_listing_results env0 (mkReq [("type", "demo.Thing"), ("order", "x")]) =
      .ok [thingX] ∧
    page_listing_results env0 (mkReq [("type", "demo.Thing")]) =
      .ok [thingX, thingY] ∧
    page_listing_results env0 (mkReq [("type", "demo.Thing"), ("order", "x")]) ≠
      page_listing_results env0 (mkReq [("type", "demo.Thing")]) := by
  refine ⟨rfl, rfl, ?_⟩
  intro h
  rw [show page_listing_results env0 (mkReq [("type", "demo.Thing"), ("order", "x")]) =
        .ok [thingX] from rfl,
      show page_listing_results env0 (mkReq [("type", "demo.Thing")]) =
        .ok [thingX, thingY] from rfl] at h
  simp at h

/-- Claim C5 (amended): for an `order` value that is not `random`, `id`,
`title`, or a declared `api_fields` name, the ordering stage is silently
skipped (no error), and — provided the dynamic field filter treats the
parameter lists with and without `order` alike, as it does whenever the
model's filterset consumes no parameter named `order` — the listing result is
identical (same items, same order) to the same request without the `order`
parameter. -/
theorem order_fallback_preserves_listing (σ : Env) (req req' : Request)
    (v : String) (m : ModelDesc)
    (hroot : req.siteRoot = req'.siteRoot)
    (hkeys : ∀ k, k ≠ "order" → List.lookup k req.params = List.lookup k req'.params)
    (ho : List.lookup "order" req.params = some v)
    (ho' : List.lookup "order" req'.params = none)
    (hm : resolveType σ req = .ok m)
    (hff : ∀ qs, fieldFilterStage m req.params qs = fieldFilterStage m req'.params qs)
    (hv1 : v ≠ "random") (hv2 : v ≠ "id") (hv3 : v ≠ "title")
    (hv4 : ∀ fs, m.api_fields = some fs → fs.contains v = false) :
    page_listing_results σ req = page_listing_results σ req' := by
  have htype : List.lookup "type" req.params = List.lookup "type" req'.params :=
    hkeys "type" (by decide)
  have hm' : resolveType σ req' = .ok m := by
    unfold resolveType at hm ⊢
    rw [← htype]
    exact hm
  have hbase : get_base_queryset σ req' m = get_base_queryset σ req m := by
    unfold get_base_queryset
    rw [hroot]
  have hchild : ∀ qs, childOfStage σ req.params qs = childOfStage σ req'.params qs := by
    intro qs
    unfold childOfStage
    rw [hkeys "child_of" (by decide)]
  have horder : ∀ qs, orderStage σ m req.params qs = qs := by
    intro qs
    unfold orderStage
    rw [ho]
    have e1 : (v == "random") = false := beq_eq_false_iff_ne.mpr hv1
    have e2 : (v == "id") = false := beq_eq_false_iff_ne.mpr hv2
    have e3 : (v == "title") = false := beq_eq_false_iff_ne.mpr hv3
    simp only [e1, e2, e3, Bool.false_eq_true, if_false]
    cases haf : m.api_fields with
    | none => rfl
    | some fs => simp only [hv4 fs haf, Bool.false_eq_true, if_false]
  have horder' : ∀ qs, orderStage σ m req'.params qs = qs := by
    intro qs
    unfold orderStage
    rw [ho']
  have hsearch : ∀ qs, searchStage σ req.params qs = searchStage σ req'.params qs := by
    intro qs
    unfold searchStage
    rw [hkeys "search" (by decide)]
  have hslice : ∀ qs, sliceStage req.params qs = sliceStage req'.params qs := by
    intro qs
    unfold sliceStage offsetVal limitVal
    rw [hkeys "offset" (by decide), hkeys "limit" (by decide)]
  unfold page_listing_results page_listing_collection
  simp only [hm, hm']
  rw [hbase, hff (get_base_queryset σ req m)]
  cases hq : fieldFilterStage m req'.params (get_base_queryset σ req m) with
  | error e => rfl
  | ok qs1 =>
    simp only []
    rw [hchild qs1]
    cases hc2 : childOfStage σ req'.params qs1 with
    | error e => rfl
    | ok qs2 =>
      simp only []
      rw [horder qs2, horder' qs2, hsearch qs2, hslice (searchStage σ req'.params qs2)]

/-- Concrete check of the amended C5: `order=junk` on the fixture default
listing returns the same collection as no `order` at all. -/
theorem order_fallback_preserves_listing_witness :
    page_listing_results env0 (mkReq [("order", "junk")]) =
      page_listing_results env0 (mkReq []) :=
  order_fallback_preserves_listing env0 (mkReq [("order", "junk")]) (mkReq [])
    "junk" pageModel0 rfl
    (fun k hk => by
      have e : (k == "order") = false := beq_eq_false_iff_ne.mpr hk
      show List.lookup k [("order", "junk")] = List.lookup k []
      simp [List.lookup, e])
    rfl rfl rfl
    (fun qs => congrArg Except.ok (List.filter_congr (fun p _ => rfl)))
    (by decide) (by decide) (by decide)
    (fun fs h => Option.noConfusion h)

/-- Concrete check of C8: `page=5` on the two-image fixture store is out of
range and yields the 404 body; the default page of the same store returns all
items with null links. -/
theorem page_number_pagination_spec_witness :
    image_listing_view env0 (mkReq [("page", "5")]) =
      .ok ⟨404, .obj [("message", .str "This page has no results")]⟩ ∧
    image_listing_view env0 (mkReq []) =
      .ok ⟨200, .obj [("count", .num 2),
                      ("results", .arr [.str "image-1", .str "image-2"]),
                      ("previous", .null), ("next", .null)]⟩ :=
  ⟨(page_number_pagination_spec env0 (mkReq [("page", "5")]) 5 rfl).1 (by decide),
   ((page_number_pagination_spec env0 (mkReq []) 1 rfl).2.1 rfl (by decide)).trans
     (by rfl)⟩

end WagtailAPI
